import Mathlib

/-!
Shallow embedding of the letsorder backend (Rust / actix-web / sqlx / SQLite)
and proofs about the behavior of its core handlers.

Conventions of the embedding:
- SQLite tables become Lean lists of row structures (field names follow
  `src/backend/src/models.rs`); timestamps are modelled as `Int` seconds,
  `f64` prices as `Rat`, `i32` quantities as `Int`.
- A handler becomes a pure function from the database state plus explicit
  oracle inputs (current time, freshly generated UUIDs/tokens, injected
  write-failure flags) to a response paired with the new database state.
  Database reads are modelled as total (a healthy store); fallible writes
  take an explicit failure flag where a claim depends on the failure path.
- sqlx's `fetch_optional` is the head of the result row list.  A SQL
  `SELECT COUNT(*)` aggregate without GROUP BY produces exactly one result
  row holding the count, which is the key semantic fact behind several of
  the theorems below.
-/

namespace LetsOrder

/-! ## Data model: rows of the SQLite tables (src/backend/src/models.rs) -/

/-- Row of the `users` table. -/
structure User where
  id : String
  email : String
  phone : Option String
  password_hash : String
  deriving Repr, DecidableEq

/-- Row of the `restaurants` table. -/
structure Restaurant where
  id : String
  name : String
  address : Option String
  establishment_year : Option Int
  google_maps_link : Option String
  deriving Repr, DecidableEq

/-- Row of the `restaurant_managers` join table. -/
structure RestaurantManager where
  restaurant_id : String
  user_id : String
  role : String
  can_manage_menu : Bool
  deriving Repr, DecidableEq

/-- Row of the `manager_invites` table. -/
structure ManagerInvite where
  id : String
  restaurant_id : String
  email : String
  can_manage_menu : Bool
  token : String
  expires_at : Int
  deriving Repr, DecidableEq

/-- Row of the `tables` table. -/
structure Table where
  id : String
  restaurant_id : String
  name : String
  unique_code : String
  deriving Repr, DecidableEq

/-- Row of the `menu_sections` table. -/
structure MenuSection where
  id : String
  restaurant_id : String
  name : String
  display_order : Int
  deriving Repr, DecidableEq

/-- Row of the `menu_items` table. -/
structure MenuItem where
  id : String
  section_id : String
  name : String
  description : Option String
  price : Rat
  available : Bool
  display_order : Int
  deriving Repr, DecidableEq

/-- One order line snapshot (serialized into the `items` JSON column of
`orders` in the source; modelled as structured data). -/
structure OrderItem where
  menu_item_id : String
  quantity : Int
  price : Rat
  notes : Option String
  deriving Repr, DecidableEq

/-- Row of the `orders` table.  `status` defaults to `"pending"` in the
schema; the INSERT in `create_order` does not set it explicitly. -/
structure Order where
  id : String
  table_id : String
  items : List OrderItem
  total_amount : Rat
  status : String
  customer_name : Option String
  deriving Repr, DecidableEq

/-- The whole SQLite database state. -/
structure Db where
  users : List User
  restaurants : List Restaurant
  restaurant_managers : List RestaurantManager
  manager_invites : List ManagerInvite
  tables : List Table
  menu_sections : List MenuSection
  menu_items : List MenuItem
  orders : List Order
  deriving Repr, DecidableEq

/-! ## SQL / sqlx primitives -/

/-- Result rows of `SELECT * FROM t WHERE p`. -/
def selectWhere (rows : List α) (p : α → Bool) : List α := rows.filter p

/-- Result rows of `SELECT COUNT(*) FROM t WHERE p`: an aggregate COUNT
without GROUP BY always produces exactly one row, holding the count —
even when the count is zero. -/
def countQuery (rows : List α) (p : α → Bool) : List Nat :=
  [(rows.filter p).length]

/-- sqlx `fetch_optional`: the first row of the result set, if any. -/
def fetchOptional (rows : List α) : Option α := rows.head?

/-! ## Order placement pipeline (src/backend/src/order_handlers.rs) -/

/-- Request body of `POST /orders` (`CreateOrderItem` in models.rs).
Note that the client supplies no price field at all. -/
structure CreateOrderItem where
  menu_item_id : String
  quantity : Int
  special_requests : Option String
  deriving Repr, DecidableEq

/-- Request body of `POST /orders` (`CreateOrderRequest` in models.rs). -/
structure CreateOrderRequest where
  table_code : String
  items : List CreateOrderItem
  customer_name : Option String
  deriving Repr, DecidableEq

/-- Responses `create_order` can produce. -/
inductive CreateOrderResp where
  | created (order_id : String) (total_amount : Rat) (status : String)
  | badRequest (msg : String)
  | notFound (msg : String)
  | internalError (msg : String)
  deriving Repr, DecidableEq

/-- HTTP status code of a `create_order` response. -/
def CreateOrderResp.code : CreateOrderResp → Nat
  | .created _ _ _ => 201
  | .badRequest _ => 400
  | .notFound _ => 404
  | .internalError _ => 500

/-- Per-line menu item resolution in `create_order`: the SQL join
`menu_items mi JOIN menu_sections ms ON mi.section_id = ms.id WHERE
mi.id = ? AND ms.restaurant_id = ? AND mi.available = TRUE`. -/
def lookupMenuItem (db : Db) (restaurantId itemId : String) : Option MenuItem :=
  fetchOptional (selectWhere db.menu_items (fun mi =>
    mi.id == itemId && mi.available &&
      db.menu_sections.any (fun ms =>
        ms.id == mi.section_id && ms.restaurant_id == restaurantId)))

/-- The `for item in &req.items` loop of `create_order`: resolve each line's
menu item (scoped to the table's restaurant and availability), reject
non-positive quantities, snapshot the stored unit price, and accumulate the
running total left to right.  The first failing line aborts the whole loop. -/
def validateItems (db : Db) (restaurantId : String) :
    List CreateOrderItem → Rat → List OrderItem →
    Except CreateOrderResp (List OrderItem × Rat)
  | [], total, acc => .ok (acc.reverse, total)
  | it :: rest, total, acc =>
    match lookupMenuItem db restaurantId it.menu_item_id with
    | none =>
        .error (.badRequest
          ("Menu item " ++ it.menu_item_id ++ " not found or not available"))
    | some mi =>
        if it.quantity ≤ 0 then
          .error (.badRequest "Item quantity must be greater than 0")
        else
          validateItems db restaurantId rest (total + mi.price * it.quantity)
            ({ menu_item_id := it.menu_item_id, quantity := it.quantity,
               price := mi.price, notes := it.special_requests } :: acc)

/-- Handler `create_order`.  `newOrderId` is the generated UUID;
`insertFails` injects a failure of the single INSERT INTO orders
(serialization of the plain line-snapshot structs cannot fail and is
modelled as total). -/
def create_order (db : Db) (req : CreateOrderRequest) (newOrderId : String)
    (insertFails : Bool) : CreateOrderResp × Db :=
  match fetchOptional (selectWhere db.tables
      (fun t => t.unique_code == req.table_code)) with
  | none => (.notFound "Invalid table code", db)
  | some table =>
    match validateItems db table.restaurant_id req.items 0 [] with
    | .error resp => (resp, db)
    | .ok (order_items, total_amount) =>
      if order_items.isEmpty then
        (.badRequest "Order must contain at least one item", db)
      else if insertFails then
        (.internalError "Failed to create order", db)
      else
        (.created newOrderId total_amount "pending",
         { db with orders := db.orders ++
             [{ id := newOrderId, table_id := table.id, items := order_items,
                total_amount := total_amount, status := "pending",
                customer_name := req.customer_name }] })

/-- A request line is valid for a restaurant when its menu item resolves
(belongs to the restaurant and is available) and its quantity is positive. -/
def lineValid (db : Db) (restaurantId : String) (it : CreateOrderItem) : Bool :=
  (lookupMenuItem db restaurantId it.menu_item_id).isSome && decide (0 < it.quantity)

/-- The unit-price-times-quantity contribution of one request line, with the
unit price read from the stored menu item. -/
def linePrice (db : Db) (restaurantId : String) (it : CreateOrderItem) : Rat :=
  (match lookupMenuItem db restaurantId it.menu_item_id with
   | some mi => mi.price
   | none => 0) * it.quantity

/-- The error message `create_order` produces for an invalid line: the
quantity message when the item itself resolves, otherwise the message naming
the offending item. -/
def lineErrorMsg (db : Db) (restaurantId : String) (it : CreateOrderItem) : String :=
  if (lookupMenuItem db restaurantId it.menu_item_id).isSome then
    "Item quantity must be greater than 0"
  else
    "Menu item " ++ it.menu_item_id ++ " not found or not available"

/-! ## Restaurant lifecycle and manager administration
(src/backend/src/handlers.rs)

Each guarded handler opens with
`sqlx::query!("SELECT COUNT(*) as count FROM restaurant_managers WHERE ...")
.fetch_optional(...)` and matches `Ok(Some(_))` to proceed and `Ok(None)` to
refuse.  The embedding reproduces that match verbatim over
`fetchOptional (countQuery ...)`. -/

/-- The super-admin COUNT probe shared by `update_restaurant`,
`delete_restaurant`, `invite_manager`, `remove_manager` and
`update_manager_permissions`. -/
def superAdminProbe (db : Db) (restaurantId callerId : String) : Option Nat :=
  fetchOptional (countQuery db.restaurant_managers (fun m =>
    m.restaurant_id == restaurantId && m.user_id == callerId &&
      m.role == "super_admin"))

/-- Request body of `PUT /restaurants/:id` (`UpdateRestaurantRequest`). -/
structure UpdateRestaurantRequest where
  name : Option String
  address : Option String
  establishment_year : Option Int
  google_maps_link : Option String
  deriving Repr, DecidableEq

/-- Responses `update_restaurant` can produce. -/
inductive UpdateRestaurantResp where
  | ok (r : Restaurant)
  | badRequest (msg : String)
  | forbidden (msg : String)
  | notFound (msg : String)
  | internalError (msg : String)
  deriving Repr, DecidableEq

/-- The dynamic `UPDATE restaurants SET ...` applied to one row: each field
present in the request overwrites the stored column. -/
def applyRestaurantUpdate (req : UpdateRestaurantRequest) (r : Restaurant) :
    Restaurant :=
  { r with
    name := req.name.getD r.name,
    address := match req.address with | some a => some a | none => r.address,
    establishment_year := match req.establishment_year with
      | some y => some y | none => r.establishment_year,
    google_maps_link := match req.google_maps_link with
      | some g => some g | none => r.google_maps_link }

/-- Handler `update_restaurant`: super-admin probe, then a dynamic UPDATE of
the provided fields, then a re-fetch of the updated row. -/
def update_restaurant (db : Db) (callerId restaurantId : String)
    (req : UpdateRestaurantRequest) : UpdateRestaurantResp × Db :=
  match superAdminProbe db restaurantId callerId with
  | none => (.forbidden "Only super admin can update restaurant details", db)
  | some _ =>
    if req.name.isNone && req.address.isNone && req.establishment_year.isNone
        && req.google_maps_link.isNone then
      (.badRequest "No fields to update", db)
    else
      let affected :=
        (db.restaurants.filter (fun r => r.id == restaurantId)).length
      let db' := { db with restaurants := db.restaurants.map (fun r =>
        if r.id == restaurantId then applyRestaurantUpdate req r else r) }
      if affected == 0 then
        (.notFound "Restaurant not found", db')
      else
        match fetchOptional (selectWhere db'.restaurants
            (fun r => r.id == restaurantId)) with
        | some r => (.ok r, db')
        | none =>
            (.internalError "Restaurant updated but failed to fetch details",
             db')

/-- Responses `delete_restaurant` can produce. -/
inductive DeleteRestaurantResp where
  | noContent
  | forbidden (msg : String)
  | notFound (msg : String)
  | internalError (msg : String)
  deriving Repr, DecidableEq

/-- Handler `delete_restaurant`: super-admin probe, then
`DELETE FROM restaurants WHERE id = ?` (related rows are left to the
store's ON DELETE CASCADE; only the `restaurants` table is modelled as
changing here). -/
def delete_restaurant (db : Db) (callerId restaurantId : String) :
    DeleteRestaurantResp × Db :=
  match superAdminProbe db restaurantId callerId with
  | none => (.forbidden "Only super admin can delete restaurant", db)
  | some _ =>
    let affected :=
      (db.restaurants.filter (fun r => r.id == restaurantId)).length
    let db' := { db with restaurants :=
      db.restaurants.filter (fun r => !(r.id == restaurantId)) }
    if affected == 0 then (.notFound "Restaurant not found", db')
    else (.noContent, db')

/-- Request body of the invite endpoint (`InviteManagerRequest`). -/
structure InviteManagerRequest where
  email : String
  can_manage_menu : Bool
  deriving Repr, DecidableEq

/-- Responses `invite_manager` can produce. -/
inductive InviteManagerResp where
  | created (invite_token : String) (expires_at : Int)
  | conflict (msg : String)
  | forbidden (msg : String)
  | internalError (msg : String)
  deriving Repr, DecidableEq

/-- Seven days in seconds (`Duration::days(7)`). -/
def sevenDays : Int := 7 * 24 * 60 * 60

/-- Handler `invite_manager`: super-admin probe; COUNT probe for an existing
manager with the target email (a JOIN with `users`); COUNT probe for a
non-expired invite for (restaurant, email); then INSERT of a fresh invite
with token `newToken` (the generated UUID), 7-day expiry and the row id
`newInviteId` supplied by the store. -/
def invite_manager (db : Db) (callerId restaurantId : String)
    (req : InviteManagerRequest) (now : Int) (newToken newInviteId : String)
    (insertFails : Bool) : InviteManagerResp × Db :=
  match superAdminProbe db restaurantId callerId with
  | none => (.forbidden "Only super admin can invite managers", db)
  | some _ =>
  match fetchOptional (countQuery db.restaurant_managers (fun m =>
      m.restaurant_id == restaurantId &&
        db.users.any (fun u => u.id == m.user_id && u.email == req.email))) with
  | some _ =>
      (.conflict "User is already a manager of this restaurant", db)
  | none =>
  match fetchOptional (countQuery db.manager_invites (fun i =>
      i.restaurant_id == restaurantId && i.email == req.email &&
        decide (now < i.expires_at))) with
  | some _ =>
      (.conflict "Active invite already exists for this email", db)
  | none =>
    if insertFails then (.internalError "Failed to create invite", db)
    else
      (.created newToken (now + sevenDays),
       { db with manager_invites := db.manager_invites ++
           [{ id := newInviteId, restaurant_id := restaurantId,
              email := req.email, can_manage_menu := req.can_manage_menu,
              token := newToken, expires_at := now + sevenDays }] })

/-- Responses `remove_manager` can produce. -/
inductive RemoveManagerResp where
  | noContent
  | badRequest (msg : String)
  | forbidden (msg : String)
  | notFound (msg : String)
  | internalError (msg : String)
  deriving Repr, DecidableEq

/-- Handler `remove_manager`: super-admin probe; refuse removing oneself;
then `DELETE FROM restaurant_managers WHERE restaurant_id = ? AND
user_id = ?`. -/
def remove_manager (db : Db) (callerId restaurantId targetUserId : String) :
    RemoveManagerResp × Db :=
  match superAdminProbe db restaurantId callerId with
  | none => (.forbidden "Only super admin can remove managers", db)
  | some _ =>
    if targetUserId == callerId then
      (.badRequest "Cannot remove yourself", db)
    else
      let affected := (db.restaurant_managers.filter (fun m =>
        m.restaurant_id == restaurantId && m.user_id == targetUserId)).length
      let db' := { db with restaurant_managers :=
        db.restaurant_managers.filter (fun m =>
          !(m.restaurant_id == restaurantId && m.user_id == targetUserId)) }
      if affected == 0 then (.notFound "Manager not found", db')
      else (.noContent, db')

/-! ## Credential primitive (src/backend/src/auth.rs) -/

/-- Modelled from the spec: the argon2 password-hash collaborator (an
external crate, not part of this repository's source).  Spec §4.2 contracts
a memory-hard one-way function with a fresh random salt per call, stored as
a self-describing PHC string that embeds the salt; verification re-derives
the digest from the candidate password and the stored salt and compares.
The digest is modelled as the injective pairing of password and salt, which
realizes the contracted collision-free behavior; a stored string that is not
a well-formed PHC string fails to parse. -/
inductive PhcString where
  | phc (salt : String) (digest : String × String)
  | malformed (raw : String)
  deriving Repr, DecidableEq

/-- Modelled from the spec: the argon2 digest of a password under a salt
(injective model of the contracted collision-free hash). -/
def argonDigest (password salt : String) : String × String := (password, salt)

/-- Modelled from the spec: `PasswordHash::new` — parse a stored PHC string
into its salt and digest, failing on a malformed string. -/
def phcParse : PhcString → Option (String × (String × String))
  | .phc salt digest => some (salt, digest)
  | .malformed _ => none

/-- Errors of the password primitive as `verify_password` surfaces them:
anything other than a clean mismatch is an error (here, the malformed-hash
parse error). -/
inductive PasswordHashError where
  | parseError
  deriving Repr, DecidableEq

/-- `PasswordHasher::hash_password`: draw a fresh random salt (explicit
oracle argument `salt`), hash the password under it, return the PHC
string. -/
def hash_password (password : String) (salt : String) : PhcString :=
  .phc salt (argonDigest password salt)

/-- `PasswordHasher::verify_password`: parse the stored hash (returning the
parse error on a malformed string), re-derive the digest from the candidate
password and stored salt, and map a digest mismatch to `Ok(false)` and a
match to `Ok(true)`. -/
def verify_password (password : String) (hash : PhcString) :
    Except PasswordHashError Bool :=
  match phcParse hash with
  | none => .error .parseError
  | some (salt, digest) => .ok (decide (argonDigest password salt = digest))

/-! ## Invite redemption (`join_restaurant`, src/backend/src/handlers.rs)

The handler finds the invite and checks the email outside any transaction,
then opens a transaction for the user resolution/creation, the manager-row
insert and the invite deletion, and commits.  Any early return before the
commit drops the sqlx transaction, which rolls it back; the embedding makes
this explicit by threading a transaction-local copy `txdb` of the database
and returning the original `db` on every pre-commit exit. -/

/-- Request body of the join endpoint (`JoinRestaurantRequest`). -/
structure JoinRestaurantRequest where
  email : String
  phone : Option String
  password : String
  deriving Repr, DecidableEq

/-- Responses `join_restaurant` can produce.  `ok` carries the session token
and the resolved user id of the 200 `AuthResponse`. -/
inductive JoinResp where
  | ok (token : String) (userId : String)
  | badRequest (msg : String)
  | conflict (msg : String)
  | internalError (msg : String)
  deriving Repr, DecidableEq

/-- Injectable failures for the fallible steps of `join_restaurant`:
password hashing, the INSERT INTO users, the INSERT INTO
restaurant_managers, the DELETE of the invite, the COMMIT, and the
post-commit JWT generation. -/
structure JoinFailures where
  hashFails : Bool
  insertUserFails : Bool
  insertManagerFails : Bool
  deleteInviteFails : Bool
  commitFails : Bool
  jwtFails : Bool
  deriving Repr, DecidableEq

/-- The all-false failure oracle: a healthy store and JWT signer. -/
def JoinFailures.none : JoinFailures :=
  ⟨false, false, false, false, false, false⟩

/-- The invite lookup opening `join_restaurant`:
`SELECT ... FROM manager_invites WHERE restaurant_id = ? AND token = ? AND
expires_at > datetime('now')` via `fetch_optional`. -/
def findValidInvite (db : Db) (restaurantId token : String) (now : Int) :
    Option ManagerInvite :=
  fetchOptional (selectWhere db.manager_invites (fun i =>
    i.restaurant_id == restaurantId && i.token == token &&
      decide (now < i.expires_at)))

/-- Handler `join_restaurant`.  Oracle arguments: `now` (the clock),
`newUserId` (the UUID drawn for a newly created account), `hashedPw` (the
PHC string produced for the supplied password), `jwt` (the session token the
signer issues on success), and the failure flags `f`. -/
def join_restaurant (db : Db) (restaurantId token : String)
    (req : JoinRestaurantRequest) (now : Int) (newUserId hashedPw jwt : String)
    (f : JoinFailures) : JoinResp × Db :=
  match findValidInvite db restaurantId token now with
  | none => (.badRequest "Invalid or expired invite token", db)
  | some invite =>
    if invite.email ≠ req.email then
      (.badRequest "Email does not match invite", db)
    else
      -- transaction begins; txdb is the transaction-local state
      let txdb := db
      -- step 1: resolve the user inside the transaction
      let step1 : Except JoinResp (String × Db) :=
        match fetchOptional (selectWhere txdb.users
            (fun u => u.email == req.email)) with
        | some user =>
          -- the COUNT aggregate always yields one row, so this match always
          -- takes the Conflict arm when an account with the email exists
          match fetchOptional (countQuery txdb.restaurant_managers (fun m =>
              m.restaurant_id == restaurantId && m.user_id == user.id)) with
          | some _ =>
              .error (.conflict "User is already a manager of this restaurant")
          | none => .ok (user.id, txdb)
        | none =>
          if f.hashFails then .error (.internalError "Internal server error")
          else if f.insertUserFails then
            .error (.internalError "Failed to create user")
          else
            .ok (newUserId, { txdb with users := txdb.users ++
              [{ id := newUserId, email := req.email, phone := req.phone,
                 password_hash := hashedPw }] })
      match step1 with
      | .error resp => (resp, db)   -- early return: transaction rolled back
      | .ok (userId, txdb) =>
        -- step 2: INSERT INTO restaurant_managers (role 'manager')
        if f.insertManagerFails then (.internalError "Failed to add manager", db)
        else
          let txdb : Db := { txdb with restaurant_managers :=
            txdb.restaurant_managers ++
              [{ restaurant_id := restaurantId, user_id := userId,
                 role := "manager", can_manage_menu := invite.can_manage_menu }] }
          -- step 3: DELETE FROM manager_invites WHERE id = ?
          if f.deleteInviteFails then
            (.internalError "Failed to process invite", db)
          else
            let txdb : Db := { txdb with manager_invites :=
              txdb.manager_invites.filter (fun i => !(i.id == invite.id)) }
            -- step 4: COMMIT
            if f.commitFails then
              (.internalError "Failed to join restaurant", db)
            else
              -- committed; post-commit: fetch the user and issue the JWT
              if f.jwtFails then (.internalError "Internal server error", txdb)
              else (.ok jwt userId, txdb)

/-! ## Concrete database states used by evaluation theorems and witnesses -/

/-- Restaurant R1 owned by super admin u1; a second registered user u2 holds
no `restaurant_managers` row at all; no invites exist. -/
def dbAuthBypass : Db :=
  { users := [⟨"u1", "e1@x.com", none, "h1"⟩, ⟨"u2", "e2@x.com", none, "h2"⟩],
    restaurants := [⟨"R1", "Cafe", none, none, none⟩],
    restaurant_managers := [⟨"R1", "u1", "super_admin", true⟩],
    manager_invites := [], tables := [], menu_sections := [],
    menu_items := [], orders := [] }

/-- Like `dbAuthBypass`, plus a valid invite for u2's email on R1 with an
expiry far in the future; u2 is still not a manager of R1. -/
def dbJoinBug : Db :=
  { dbAuthBypass with
    manager_invites := [⟨"i1", "R1", "e2@x.com", true, "tok1", 1000⟩] }

/-- Like `dbAuthBypass`, plus an invite for u2's email on R1 that is already
expired at time 10. -/
def dbExpired : Db :=
  { dbAuthBypass with
    manager_invites := [⟨"i1", "R1", "e2@x.com", true, "tok1", 5⟩] }

/-- Valid invite for a fresh email (no account) on R1. -/
def dbJoinFresh : Db :=
  { dbAuthBypass with
    manager_invites := [⟨"i2", "R1", "new@x.com", false, "tok2", 1000⟩] }

/-- Restaurant R1 with one table (code "TBL1") and two available menu items
priced 6 and 5, plus a second restaurant R2 whose menu item M3 does not
belong to R1. -/
def dbOrder : Db :=
  { users := [],
    restaurants := [⟨"R1", "Cafe", none, none, none⟩,
                    ⟨"R2", "Other", none, none, none⟩],
    restaurant_managers := [], manager_invites := [],
    tables := [⟨"T1", "R1", "Table 1", "TBL1"⟩],
    menu_sections := [⟨"S1", "R1", "Mains", 0⟩, ⟨"S2", "R2", "Mains", 0⟩],
    menu_items := [⟨"M1", "S1", "Dosa", none, 6, true, 0⟩,
                   ⟨"M2", "S1", "Tea", none, 5, true, 1⟩,
                   ⟨"M3", "S2", "Pasta", none, 9, true, 0⟩],
    orders := [] }

/-! ## Basic facts about the SQL primitives -/

/-- A COUNT query probed with `fetch_optional` always yields a row. -/
theorem fetchOptional_countQuery (rows : List α) (p : α → Bool) :
    fetchOptional (countQuery rows p) = some (rows.filter p).length := rfl

/-! ## C10 — `remove_manager` refuses self-removal -/

/-- C10: for every caller of `remove_manager` whose target user id equals
the caller's own id, the handler returns BadRequest "Cannot remove yourself"
before the DELETE runs and leaves the database unchanged, so no
RestaurantManager row is removed. -/
theorem remove_manager_self_removal (db : Db) (callerId restaurantId : String) :
    remove_manager db callerId restaurantId callerId =
      (RemoveManagerResp.badRequest "Cannot remove yourself", db) := by
  simp [remove_manager, superAdminProbe, countQuery, fetchOptional]

/-! ## C1 — super-admin gating of restaurant update/delete (code bug)

The source guards `update_restaurant` and `delete_restaurant` with
`SELECT COUNT(*) ... fetch_optional` matched on `Ok(Some(_))`.  A COUNT
aggregate always returns one row, so the probe yields `Some` for every
caller and the Forbidden branch is dead: the role check is vacuous.  The
same file's menu handlers use the correct `fetch_one` + `row.count > 0`
pattern, and the handlers' own comments and error strings state the
super-admin intent, so this is a slip in the code, not in the spec. -/

/-- The super-admin probe returns `some` for every caller, including one
with no manager row at all: the authorization check can never refuse. -/
theorem superAdminProbe_always_some (db : Db) (restaurantId callerId : String) :
    superAdminProbe db restaurantId callerId ≠ none := by
  simp [superAdminProbe, countQuery, fetchOptional]

/-- C1 evaluation: u2 holds no manager row for R1, yet `update_restaurant`
rewrites R1's name and returns 200, and `delete_restaurant` removes R1 and
returns 204 — neither returns the claimed 403, and the `restaurants` table
changes both times. -/
theorem update_delete_restaurant_auth_bypass :
    (dbAuthBypass.restaurant_managers.all (fun m => !(m.user_id == "u2"))) = true ∧
    update_restaurant dbAuthBypass "u2" "R1" ⟨some "Hacked", none, none, none⟩ =
      (UpdateRestaurantResp.ok ⟨"R1", "Hacked", none, none, none⟩,
       { dbAuthBypass with restaurants := [⟨"R1", "Hacked", none, none, none⟩] }) ∧
    delete_restaurant dbAuthBypass "u2" "R1" =
      (DeleteRestaurantResp.noContent,
       { dbAuthBypass with restaurants := [] }) := by
  refine ⟨rfl, ?_, ?_⟩ <;> decide

/-! ## C2 — invite issuance (code bug)

The "already a manager" probe in `invite_manager` is also a
`SELECT COUNT(*) ... fetch_optional` whose `Ok(Some(_))` arm returns
Conflict, so it fires for every request: the handler always answers 409 and
never persists an invite, even for a genuine super admin inviting a fresh
email. -/

/-- C2 evaluation: caller u1 is a genuine super admin of R1, the target
email belongs to no user (hence no manager), and no invite exists, yet
`invite_manager` returns Conflict "User is already a manager of this
restaurant" and leaves the database unchanged instead of persisting a fresh
7-day invite and returning its token. -/
theorem invite_manager_always_conflict :
    (dbAuthBypass.restaurant_managers.any (fun m =>
        m.restaurant_id == "R1" && m.user_id == "u1" &&
          m.role == "super_admin")) = true ∧
    (dbAuthBypass.users.all (fun u => !(u.email == "new@x.com"))) = true ∧
    dbAuthBypass.manager_invites = [] ∧
    invite_manager dbAuthBypass "u1" "R1" ⟨"new@x.com", true⟩ 0 "tok" "inv1" false =
      (InviteManagerResp.conflict "User is already a manager of this restaurant",
       dbAuthBypass) := by
  refine ⟨rfl, rfl, rfl, ?_⟩
  decide

/-! ## C3 — redemption with an existing account (code bug)

Inside `join_restaurant`, when an account with the invite's email already
exists, the "already a manager" probe is again a COUNT via
`fetch_optional`, so the Conflict arm fires for every existing account —
the reuse path contracted by the spec is unreachable. -/

/-- C3 evaluation: a valid, matching invite for u2's email; u2's account
exists and u2 is not a manager of R1; yet redemption answers Conflict and
mutates nothing instead of granting u2 a manager row. -/
theorem join_restaurant_existing_user_conflict :
    (dbJoinBug.restaurant_managers.all (fun m => !(m.user_id == "u2"))) = true ∧
    (dbJoinBug.users.any (fun u => u.id == "u2" && u.email == "e2@x.com")) = true ∧
    findValidInvite dbJoinBug "R1" "tok1" 0 =
      some ⟨"i1", "R1", "e2@x.com", true, "tok1", 1000⟩ ∧
    join_restaurant dbJoinBug "R1" "tok1" ⟨"e2@x.com", none, "pw"⟩ 0
        "nu" "hp" "jwt" JoinFailures.none =
      (JoinResp.conflict "User is already a manager of this restaurant",
       dbJoinBug) := by
  refine ⟨rfl, rfl, ?_, ?_⟩ <;> decide

/-! ## C9 — the password primitive -/

/-- C9: hashing then verifying the same password yields the match result
`Ok true`; verifying any other password against that stored hash yields the
clean mismatch `Ok false` rather than an error; hashing the same password
under the two distinct salts drawn by two calls yields different stored
hashes; and a malformed stored hash is the only input that produces the
third state, the parse error. -/
theorem password_hash_verify_contract (p p2 salt salt2 raw : String)
    (hp : p2 ≠ p) (hs : salt ≠ salt2) :
    verify_password p (hash_password p salt) = .ok true ∧
    verify_password p2 (hash_password p salt) = .ok false ∧
    hash_password p salt ≠ hash_password p salt2 ∧
    verify_password p (.malformed raw) = .error .parseError := by
  refine ⟨?_, ?_, ?_, rfl⟩
  · simp [verify_password, hash_password, phcParse, argonDigest]
  · simp [verify_password, hash_password, phcParse, argonDigest, Prod.ext_iff]
    exact hp
  · simp only [hash_password, argonDigest, ne_eq, PhcString.phc.injEq,
      Prod.mk.injEq, not_and]
    exact fun h => absurd h hs

/-- C9 witness at concrete inputs. -/
theorem password_hash_verify_contract_witness :
    verify_password "a" (hash_password "a" "s1") = .ok true ∧
    verify_password "b" (hash_password "a" "s1") = .ok false ∧
    hash_password "a" "s1" ≠ hash_password "a" "s2" ∧
    verify_password "a" (.malformed "junk") = .error .parseError :=
  password_hash_verify_contract "a" "b" "s1" "s2" "junk"
    (by decide) (by decide)

/-! ## C7 — expired invites are indistinguishable from missing ones -/

/-- C7: whenever every invite matching (restaurant, token) has an expiry not
in the future — which covers both an expired invite with the correct token
and matching email, and a token for which no invite exists at all — the
handler returns literally the same BadRequest "Invalid or expired invite
token" response and leaves the database unchanged, so the two cases cannot
be distinguished and an expired invite is never redeemed. -/
theorem join_restaurant_expired_like_missing (db : Db)
    (restaurantId token : String) (req : JoinRestaurantRequest) (now : Int)
    (newUserId hashedPw jwt : String) (f : JoinFailures)
    (hexp : ∀ i ∈ db.manager_invites,
      i.restaurant_id = restaurantId → i.token = token → i.expires_at ≤ now) :
    join_restaurant db restaurantId token req now newUserId hashedPw jwt f =
      (JoinResp.badRequest "Invalid or expired invite token", db) := by
  have hnone : findValidInvite db restaurantId token now = none := by
    unfold findValidInvite fetchOptional selectWhere
    rw [List.filter_eq_nil_iff.mpr ?_]
    · rfl
    · intro i hi hcontra
      simp only [Bool.and_eq_true, beq_iff_eq, decide_eq_true_eq] at hcontra
      exact absurd hcontra.2 (not_lt.mpr (hexp i hi hcontra.1.1 hcontra.1.2))
  unfold join_restaurant
  rw [hnone]

/-- C7 witness: redeeming the expired invite with the correct token and
matching email at time 10 yields exactly the missing-token response. -/
theorem join_restaurant_expired_like_missing_witness :
    join_restaurant dbExpired "R1" "tok1" ⟨"e2@x.com", none, "pw"⟩ 10
        "nu" "hp" "jwt" JoinFailures.none =
      (JoinResp.badRequest "Invalid or expired invite token", dbExpired) :=
  join_restaurant_expired_like_missing dbExpired "R1" "tok1"
    ⟨"e2@x.com", none, "pw"⟩ 10 "nu" "hp" "jwt" JoinFailures.none (by decide)

/-! ## C6 — invite redemption is atomic -/

/-- C6: redemption never partially applies.  First part: if any of the
fallible transactional steps — password hashing, user insert, manager-row
insert, invite deletion, or the commit itself — fails, the final database
equals the initial one (the invite row is still present and unconsumed, no
manager row was added, no user was created).  Second part: every run either
leaves the database unchanged or commits the full effect at once — the new
user row, the manager grant copied from the found invite, and the deletion
of that invite. -/
theorem join_restaurant_atomicity (db : Db) (restaurantId token : String)
    (req : JoinRestaurantRequest) (now : Int) (newUserId hashedPw jwt : String)
    (f : JoinFailures) :
    ((f.hashFails || f.insertUserFails || f.insertManagerFails ||
        f.deleteInviteFails || f.commitFails) = true →
      (join_restaurant db restaurantId token req now newUserId hashedPw jwt f).2
        = db) ∧
    ((join_restaurant db restaurantId token req now newUserId hashedPw jwt f).2
        = db ∨
      ∃ invite, findValidInvite db restaurantId token now = some invite ∧
        (join_restaurant db restaurantId token req now newUserId hashedPw jwt
            f).2 =
          { db with
              users := db.users ++
                [⟨newUserId, req.email, req.phone, hashedPw⟩],
              restaurant_managers := db.restaurant_managers ++
                [⟨restaurantId, newUserId, "manager", invite.can_manage_menu⟩],
              manager_invites :=
                db.manager_invites.filter (fun i => !(i.id == invite.id)) }) := by
  unfold join_restaurant
  cases hinv : findValidInvite db restaurantId token now with
  | none => exact ⟨fun _ => rfl, Or.inl rfl⟩
  | some invite =>
    by_cases hem : invite.email = req.email
    · simp only [hem, ne_eq, not_true_eq_false, if_false]
      cases hu : fetchOptional (selectWhere db.users
          (fun u => u.email == req.email)) with
      | some user =>
        simp only [hu, fetchOptional, countQuery, List.head?]
        refine ⟨fun _ => ?_, Or.inl ?_⟩ <;> trivial
      | none =>
        simp only [hu]
        cases hf1 : f.hashFails with
        | true =>
          simp only [if_true]
          refine ⟨fun _ => ?_, Or.inl ?_⟩ <;> trivial
        | false =>
          simp only [Bool.false_eq_true, if_false]
          cases hf2 : f.insertUserFails with
          | true =>
          simp only [if_true]
          refine ⟨fun _ => ?_, Or.inl ?_⟩ <;> trivial
          | false =>
            simp only [Bool.false_eq_true, if_false]
            cases hf3 : f.insertManagerFails with
            | true =>
          simp only [if_true]
          refine ⟨fun _ => ?_, Or.inl ?_⟩ <;> trivial
            | false =>
              simp only [Bool.false_eq_true, if_false]
              cases hf4 : f.deleteInviteFails with
              | true =>
          simp only [if_true]
          refine ⟨fun _ => ?_, Or.inl ?_⟩ <;> trivial
              | false =>
                simp only [Bool.false_eq_true, if_false]
                cases hf5 : f.commitFails with
                | true =>
          simp only [if_true]
          refine ⟨fun _ => ?_, Or.inl ?_⟩ <;> trivial
                | false =>
                  simp only [Bool.false_eq_true, if_false]
                  refine ⟨fun hfail => ?_, Or.inr ⟨invite, rfl, ?_⟩⟩
                  · simp at hfail
                  · cases hf6 : f.jwtFails <;> simp [hf6]
    · simp only [if_pos hem]
      refine ⟨fun _ => ?_, Or.inl ?_⟩ <;> trivial

/-- C6 witness: with the manager-row insert failing, redemption of a valid
invite for a fresh email leaves the database exactly as it was. -/
theorem join_restaurant_atomicity_witness :
    (join_restaurant dbJoinFresh "R1" "tok2" ⟨"new@x.com", none, "pw"⟩ 0
        "nu" "hp" "jwt" ⟨false, false, true, false, false, false⟩).2 =
      dbJoinFresh :=
  (join_restaurant_atomicity dbJoinFresh "R1" "tok2" ⟨"new@x.com", none, "pw"⟩
      0 "nu" "hp" "jwt" ⟨false, false, true, false, false, false⟩).1 (by decide)

/-! ## Order pipeline lemmas -/

/-- The per-line loop only ever fails with a BadRequest. -/
theorem validateItems_error_shape (db : Db) (rid : String) :
    ∀ (l : List CreateOrderItem) (t0 : Rat) (acc : List OrderItem)
      (r : CreateOrderResp),
      validateItems db rid l t0 acc = .error r → ∃ msg, r = .badRequest msg := by
  intro l
  induction l with
  | nil => intro t0 acc r h; simp [validateItems] at h
  | cons hd tl ih =>
    intro t0 acc r h
    rw [validateItems] at h
    cases hlk : lookupMenuItem db rid hd.menu_item_id with
    | none =>
      simp only [hlk] at h
      exact ⟨_, (Except.error.inj h).symm⟩
    | some mi =>
      simp only [hlk] at h
      by_cases hq : hd.quantity ≤ 0
      · rw [if_pos hq] at h
        exact ⟨_, (Except.error.inj h).symm⟩
      · rw [if_neg hq] at h
        exact ih _ _ _ h

/-- When some line of the list is invalid, the loop fails with the
BadRequest produced for the first invalid line, which is itself a member of
the list. -/
theorem validateItems_error_of_invalid (db : Db) (rid : String) :
    ∀ (l : List CreateOrderItem) (t0 : Rat) (acc : List OrderItem),
      (∃ it ∈ l, lineValid db rid it = false) →
      ∃ it ∈ l, lineValid db rid it = false ∧
        validateItems db rid l t0 acc =
          .error (.badRequest (lineErrorMsg db rid it)) := by
  intro l
  induction l with
  | nil =>
    rintro t0 acc ⟨it, hmem, _⟩
    cases hmem
  | cons hd tl ih =>
    rintro t0 acc ⟨it, hmem, hbad⟩
    cases hlk : lookupMenuItem db rid hd.menu_item_id with
    | none =>
      refine ⟨hd, List.mem_cons_self hd tl, ?_, ?_⟩
      · simp [lineValid, hlk]
      · rw [validateItems, lineErrorMsg, if_neg (by simp [hlk])]
        simp only [hlk]
    | some mi =>
      by_cases hq : hd.quantity ≤ 0
      · refine ⟨hd, List.mem_cons_self hd tl, ?_, ?_⟩
        · simp [lineValid, not_lt.mpr hq]
        · rw [validateItems, lineErrorMsg, if_pos (by simp [hlk])]
          simp only [hlk, if_pos hq]
      · have hhd : lineValid db rid hd = true := by
          simp [lineValid, hlk, lt_of_not_le hq]
        have hit : it ∈ tl := by
          rcases List.mem_cons.mp hmem with heq | htl
          · subst heq
            rw [hhd] at hbad
            exact Bool.noConfusion hbad
          · exact htl
        obtain ⟨it2, hmem2, hbad2, heq2⟩ := ih _ _ ⟨it, hit, hbad⟩
        refine ⟨it2, List.mem_cons_of_mem hd hmem2, hbad2, ?_⟩
        rw [validateItems]
        simp only [hlk, if_neg hq]
        exact heq2

/-- When every line of the list is valid, the loop succeeds; the resulting
total adds, to the accumulator, the sum over the lines of the stored unit
price times the requested quantity, and the snapshot list has one entry per
line. -/
theorem validateItems_ok_of_valid (db : Db) (rid : String) :
    ∀ (l : List CreateOrderItem) (t0 : Rat) (acc : List OrderItem),
      (∀ it ∈ l, lineValid db rid it = true) →
      ∃ out : List OrderItem,
        validateItems db rid l t0 acc =
          .ok (out, t0 + (l.map (linePrice db rid)).sum) ∧
        out.length = acc.length + l.length := by
  intro l
  induction l with
  | nil =>
    intro t0 acc _
    exact ⟨acc.reverse, by simp [validateItems], by simp⟩
  | cons hd tl ih =>
    intro t0 acc hv
    have hhd := hv hd (List.mem_cons_self hd tl)
    have hlk : (lookupMenuItem db rid hd.menu_item_id).isSome = true := by
      simp only [lineValid, Bool.and_eq_true] at hhd
      exact hhd.1
    obtain ⟨mi, hmi⟩ := Option.isSome_iff_exists.mp hlk
    have hq : ¬ hd.quantity ≤ 0 := by
      simp only [lineValid, Bool.and_eq_true, decide_eq_true_eq] at hhd
      exact not_le.mpr hhd.2
    obtain ⟨out, heq, hlen⟩ := ih (t0 + mi.price * hd.quantity)
      ({ menu_item_id := hd.menu_item_id, quantity := hd.quantity,
         price := mi.price, notes := hd.special_requests } :: acc)
      (fun it h => hv it (List.mem_cons_of_mem hd h))
    refine ⟨out, ?_, ?_⟩
    · rw [validateItems]
      simp only [hmi, if_neg hq]
      rw [heq]
      have hlp : linePrice db rid hd = mi.price * hd.quantity := by
        simp [linePrice, hmi]
      rw [List.map_cons, List.sum_cons, hlp, ← add_assoc]
    · rw [hlen]
      simp only [List.length_cons]
      omega

/-! ## C8 — order placement has no partial effects on any failure path -/

/-- C8: every run of `create_order` either returns 201 and appends exactly
one order row, or returns one of 404, 400, 500 and leaves the database
unchanged — an order row exists afterwards only when 201 is returned. -/
theorem create_order_no_partial_effects (db : Db) (req : CreateOrderRequest)
    (newOrderId : String) (insertFails : Bool) :
    ((create_order db req newOrderId insertFails).1.code = 201 ∧
      ∃ o : Order, (create_order db req newOrderId insertFails).2 =
        { db with orders := db.orders ++ [o] }) ∨
    (((create_order db req newOrderId insertFails).1.code = 404 ∨
      (create_order db req newOrderId insertFails).1.code = 400 ∨
      (create_order db req newOrderId insertFails).1.code = 500) ∧
      (create_order db req newOrderId insertFails).2 = db) := by
  cases htab : fetchOptional (selectWhere db.tables
      (fun t => t.unique_code == req.table_code)) with
  | none =>
    simp only [create_order, htab]
    refine Or.inr ⟨Or.inl ?_, ?_⟩ <;> trivial
  | some table =>
    cases hval : validateItems db table.restaurant_id req.items 0 [] with
    | error r =>
      obtain ⟨msg, rfl⟩ :=
        validateItems_error_shape db table.restaurant_id req.items 0 [] r hval
      simp only [create_order, htab, hval]
      refine Or.inr ⟨Or.inr (Or.inl ?_), ?_⟩ <;> trivial
    | ok p =>
      obtain ⟨order_items, total_amount⟩ := p
      cases hemp : order_items.isEmpty with
      | true =>
        simp only [create_order, htab, hval, hemp, if_true]
        refine Or.inr ⟨Or.inr (Or.inl ?_), ?_⟩ <;> trivial
      | false =>
        cases hins : insertFails with
        | true =>
          simp only [create_order, htab, hval, hemp, hins,
            Bool.false_eq_true, if_false, if_true]
          refine Or.inr ⟨Or.inr (Or.inr ?_), ?_⟩ <;> trivial
        | false =>
          simp only [create_order, htab, hval, hemp, hins,
            Bool.false_eq_true, if_false]
          refine Or.inl ⟨rfl, ?_⟩
          refine ⟨⟨newOrderId, table.id, order_items, total_amount,
            "pending", req.customer_name⟩, ?_⟩
          trivial

/-! ## C5 — any invalid line rejects the whole order -/

/-- C5: if any requested line is invalid for the resolved table's
restaurant — its menu item does not belong to that restaurant, or is
unavailable, or its quantity is non-positive — then `create_order` returns
BadRequest with the message produced for the (first) offending line, naming
the offending item when the item lookup is what failed, and the database is
unchanged: no order row is created. -/
theorem create_order_rejects_invalid_line (db : Db) (req : CreateOrderRequest)
    (newOrderId : String) (insertFails : Bool) (table : Table)
    (htab : fetchOptional (selectWhere db.tables
      (fun t => t.unique_code == req.table_code)) = some table)
    (hbad : ∃ it ∈ req.items, lineValid db table.restaurant_id it = false) :
    ∃ it ∈ req.items, lineValid db table.restaurant_id it = false ∧
      create_order db req newOrderId insertFails =
        (.badRequest (lineErrorMsg db table.restaurant_id it), db) := by
  obtain ⟨it, hmem, hbad2, heq⟩ :=
    validateItems_error_of_invalid db table.restaurant_id req.items 0 [] hbad
  refine ⟨it, hmem, hbad2, ?_⟩
  simp only [create_order, htab, heq]

/-- C5 witness: a request mixing a valid line (M1) with a line for M3,
which belongs to the other restaurant, leaves the database unchanged. -/
theorem create_order_rejects_invalid_line_witness :
    (create_order dbOrder
        ⟨"TBL1", [⟨"M1", 1, none⟩, ⟨"M3", 1, none⟩], none⟩ "o1" false).2 =
      dbOrder := by
  obtain ⟨it, hmem, hbad, heq⟩ := create_order_rejects_invalid_line dbOrder
    ⟨"TBL1", [⟨"M1", 1, none⟩, ⟨"M3", 1, none⟩], none⟩ "o1" false
    ⟨"T1", "R1", "Table 1", "TBL1"⟩ rfl
    ⟨⟨"M3", 1, none⟩, by decide, by decide⟩
  rw [heq]

/-! ## C4 — total is the sum of stored-price snapshots (corrected) -/

/-- C4 counterexample: the empty-items request satisfies the claim's
hypotheses — its table code resolves and every one (of zero) of its lines is
valid — yet order creation returns 400 "Order must contain at least one
item" instead of succeeding with 201. -/
theorem create_order_empty_items_cex :
    (fetchOptional (selectWhere dbOrder.tables
        (fun t => t.unique_code == "TBL1")) =
      some ⟨"T1", "R1", "Table 1", "TBL1"⟩) ∧
    (∀ it ∈ ([] : List CreateOrderItem), lineValid dbOrder "R1" it = true) ∧
    create_order dbOrder ⟨"TBL1", [], none⟩ "o1" false =
      (.badRequest "Order must contain at least one item", dbOrder) := by
  refine ⟨rfl, ?_, ?_⟩
  · simp
  · decide

/-- C4 as amended: for every order request with at least one line whose
table code resolves and whose every line is valid for the resolved table's
restaurant, creation (with the persistence write succeeding) returns 201
with `total_amount` equal to the sum over the lines of the stored unit
price of the referenced menu item times the requested quantity; the
request type carries no price field, so no price is taken from the
client. -/
theorem create_order_total_is_snapshot_sum (db : Db) (req : CreateOrderRequest)
    (newOrderId : String) (table : Table)
    (htab : fetchOptional (selectWhere db.tables
      (fun t => t.unique_code == req.table_code)) = some table)
    (hne : req.items ≠ [])
    (hv : ∀ it ∈ req.items, lineValid db table.restaurant_id it = true) :
    (create_order db req newOrderId false).1 =
      .created newOrderId
        ((req.items.map (linePrice db table.restaurant_id)).sum) "pending" := by
  obtain ⟨out, heq, hlen⟩ :=
    validateItems_ok_of_valid db table.restaurant_id req.items 0 [] hv
  have hout : out ≠ [] := by
    intro h
    rw [h] at hlen
    have : req.items.length = 0 := by simpa using hlen.symm
    exact hne (List.length_eq_zero.mp this)
  have hemp : out.isEmpty = false := by
    cases out with
    | nil => exact absurd rfl hout
    | cons a l => rfl
  simp only [create_order, htab, heq, hemp, Bool.false_eq_true, if_false,
    zero_add]

/-- C4 witness: two valid lines for M1 (price 6, quantity 2) and M2
(price 5, quantity 3). -/
theorem create_order_total_is_snapshot_sum_witness :
    (create_order dbOrder
        ⟨"TBL1", [⟨"M1", 2, none⟩, ⟨"M2", 3, none⟩], none⟩ "o1" false).1 =
      .created "o1"
        (([(⟨"M1", 2, none⟩ : CreateOrderItem), ⟨"M2", 3, none⟩].map
          (linePrice dbOrder "R1")).sum) "pending" :=
  create_order_total_is_snapshot_sum dbOrder
    ⟨"TBL1", [⟨"M1", 2, none⟩, ⟨"M2", 3, none⟩], none⟩ "o1"
    ⟨"T1", "R1", "Table 1", "TBL1"⟩ rfl (by decide) (by decide)

end LetsOrder
